import Mathlib

/-!
Shallow embedding of `urban.py`, an Urban Dictionary client library.

The network boundary is modelled explicitly: `define` receives the HTTP
status code and the decoded JSON result list (the value of the response
field named list) as parameters, and `submit_word` is split into the pure
construction of its form body and the pure handling of the response
status. Python exceptions become the `UrbanError` sum type, and a Python
function that can either return or raise becomes a function into `Except`.
-/

namespace Urban

/-- A timestamp as produced by `datetime.datetime.strptime` with format
`%Y-%m-%dT%H:%M:%S.%fZ` (src line 117): year, month, day, hour, minute,
second and microsecond components. -/
structure Timestamp where
  year : Nat
  month : Nat
  day : Nat
  hour : Nat
  minute : Nat
  second : Nat
  microsecond : Nat
deriving DecidableEq, Repr

/-- Numeric value of a list of decimal digit characters. -/
def digitsVal (cs : List Char) : Nat :=
  cs.foldl (fun a c => a * 10 + (c.toNat - 48)) 0

/-- Parse exactly `n` decimal digits (the `%Y` directive is four digits). -/
def parseFixed (n : Nat) (cs : List Char) : Option (Nat × List Char) :=
  let pre := cs.take n
  if pre.length = n ∧ pre.all Char.isDigit then
    some (digitsVal pre, cs.drop n)
  else
    none

/-- Parse one or two decimal digits, greedily (the `%m`, `%d`, `%H`, `%M`
and `%S` directives each accept one or two digits; in the fixed format the
following character is never a digit, so greedy matching agrees with the
regular expressions used by `_strptime`). -/
def parseUpTo2 (cs : List Char) : Option (Nat × List Char) :=
  match cs with
  | [] => none
  | [c1] => if c1.isDigit then some (digitsVal [c1], []) else none
  | c1 :: c2 :: rest =>
    if c1.isDigit then
      if c2.isDigit then some (digitsVal [c1, c2], rest)
      else some (digitsVal [c1], c2 :: rest)
    else none

/-- Parse the `%f` directive: one to six decimal digits, right-padded with
zeros to a microsecond count. Seven or more consecutive digits cannot
match, because the character after the matched digits must be the literal
Z of the format. -/
def parseFrac (cs : List Char) : Option (Nat × List Char) :=
  let pre := (cs.takeWhile Char.isDigit).take 6
  if pre.length = 0 then none
  else some (digitsVal pre * 10 ^ (6 - pre.length), cs.drop pre.length)

/-- Consume one expected literal character of the format string. -/
def expect (c : Char) : List Char → Option (List Char)
  | [] => none
  | x :: rest => if x = c then some rest else none

/-- Gregorian leap-year rule, as used by `datetime.date`. -/
def isLeap (y : Nat) : Bool :=
  y % 4 = 0 && (y % 100 ≠ 0 || y % 400 = 0)

/-- Number of days in a month, as validated by the `datetime` constructor. -/
def daysInMonth (y m : Nat) : Nat :=
  if m = 2 then (if isLeap y then 29 else 28)
  else if m = 4 ∨ m = 6 ∨ m = 9 ∨ m = 11 then 30
  else 31

/-- Parse the `%Y-%m-%d` date part of the format. -/
def parseYMD (cs : List Char) : Option ((Nat × Nat × Nat) × List Char) := do
  let (y, cs1) ← parseFixed 4 cs
  let cs2 ← expect '-' cs1
  let (mo, cs3) ← parseUpTo2 cs2
  let cs4 ← expect '-' cs3
  let (d, cs5) ← parseUpTo2 cs4
  pure ((y, mo, d), cs5)

/-- Parse the `%H:%M:%S` time part of the format. -/
def parseHMS (cs : List Char) : Option ((Nat × Nat × Nat) × List Char) := do
  let (h, cs1) ← parseUpTo2 cs
  let cs2 ← expect ':' cs1
  let (mi, cs3) ← parseUpTo2 cs2
  let cs4 ← expect ':' cs3
  let (sec, cs5) ← parseUpTo2 cs4
  pure ((h, mi, sec), cs5)

/-- Range validation of the parsed components, combining the bounds
enforced by the `_strptime` regular expressions with those enforced by
the `datetime` constructor: year at least 1, month 1..12, day within the
month, hour up to 23, minute and second up to 59. -/
def validParts (y mo d h mi sec : Nat) : Bool :=
  1 ≤ y && 1 ≤ mo && mo ≤ 12 && 1 ≤ d && d ≤ daysInMonth y mo
    && h ≤ 23 && mi ≤ 59 && sec ≤ 59

/-- Model of `datetime.datetime.strptime` with the fixed format string of
src lines 117 and 129, needing the whole input consumed. `none` models
the `ValueError` raised on a parse failure. -/
def parseTimestamp (s : String) : Option Timestamp := do
  let ((y, mo, d), cs1) ← parseYMD s.data
  let cs2 ← expect 'T' cs1
  let ((h, mi, sec), cs3) ← parseHMS cs2
  let cs4 ← expect '.' cs3
  let (us, cs5) ← parseFrac cs4
  let cs6 ← expect 'Z' cs5
  if cs6.isEmpty && validParts y mo d h mi sec then
    some ⟨y, mo, d, h, mi, sec, us⟩
  else
    none

/-- One decoded JSON entry of the result list returned by the lookup
endpoint, holding exactly the fields `define` reads (src lines 109-118). -/
structure RawDef where
  word : String
  definition : String
  «example» : String
  author : String
  permalink : String
  thumbs_up : Int
  thumbs_down : Int
  sound_urls : List String
  written_on : String
deriving DecidableEq, Repr

/-- The `Definition` record of src lines 23-35: the attribute names and
order follow `Definition.__init__`. The original decoded JSON entry is
kept whole in `raw_data`. -/
structure Definition where
  word : String
  definition : String
  «example» : String
  author : String
  permalink : String
  upvotes : Int
  downvotes : Int
  audio_samples : List String
  written_on : Timestamp
  raw_data : RawDef
  index : Int
deriving DecidableEq, Repr

/-- The exceptions the module can raise, plus the two builtin Python
exceptions that can escape it (`ValueError` from `strptime`, `IndexError`
from list indexing, `AttributeError` from attribute access):
`DefinitionNotFoundError` (src 53), `DefinitionOutOfScopeError` (src 61)
and `HTTPException` (src 133, 218) with the data each constructor stores. -/
inductive UrbanError where
  | notFound (word : String)
  | outOfScope (word : String) (definition_index : Int)
  | httpError (word : String) (statusCode : Nat)
  | valueError
  | indexError
  | attributeError (name : String)
deriving DecidableEq, Repr

/-- The dynamic type of the `index` parameter of `define` (src line 74):
a Python `int`, the value `None`, or any other value (for example a
string), which matches neither `isinstance(index, int)` nor
`index is None`. -/
inductive PyIndex where
  | int (i : Int)
  | pynone
  | other
deriving DecidableEq, Repr

/-- The possible returns of `define`: a single `Definition`, a list of
them, or the implicit Python `None` returned when control falls off the
end of the function body. -/
inductive DefineResult where
  | single (d : Definition)
  | full (ds : List Definition)
  | pyNone
deriving DecidableEq, Repr

/-- Python list subscription `xs[i]`: a nonnegative index reads from the
front, a negative index `i` reads position `len + i`, and anything else
raises `IndexError` (modelled as `none`). -/
def pyGet {α : Type} (xs : List α) (i : Int) : Option α :=
  if 0 ≤ i then xs.get? i.toNat
  else if -(xs.length : Int) ≤ i then xs.get? ((xs.length : Int) + i).toNat
  else none

/-- Construction of one `Definition` from a decoded entry (src lines
109-119 and 121-131): the field mapping `thumbs_up` to `upvotes`,
`thumbs_down` to `downvotes` and `sound_urls` to `audio_samples`, with
`written_on` parsed by `strptime`; a parse failure (`ValueError`) makes
the whole construction fail. -/
def buildDefinition (definition : RawDef) (index : Int) : Option Definition :=
  match parseTimestamp definition.written_on with
  | some t =>
    some ⟨definition.word, definition.definition, definition.«example»,
          definition.author, definition.permalink, definition.thumbs_up,
          definition.thumbs_down, definition.sound_urls, t, definition, index⟩
  | none => none

/-- The list comprehension of src lines 121-131, building one `Definition`
per entry with `enumerate` supplying the position `c`; the first parse
failure aborts the whole comprehension. -/
def buildDefs (c : Nat) : List RawDef → Option (List Definition)
  | [] => some []
  | d :: rest => do
    let x ← buildDefinition d ((c : Int))
    let xs ← buildDefs (c + 1) rest
    pure (x :: xs)

/-- `define(word, index)` (src lines 74-133), with the transport made
explicit: `status_code` is the HTTP status of the GET response and
`jsonList` is the decoded result list of a 200 response. Mirrors the
source: a non-200 status raises `HTTPException`; an empty list raises
`DefinitionNotFoundError`; an integer index is first compared with
`len(definitions) > index` (raising `DefinitionOutOfScopeError` when it
fails) and then used to subscript the list; `None` builds the full list;
any other index value reaches the end of the function and returns the
Python `None`. -/
def define (word : String) (index : PyIndex) (status_code : Nat)
    (jsonList : List RawDef) : Except UrbanError DefineResult :=
  if status_code = 200 then
    let definitions := jsonList
    if definitions.isEmpty then
      .error (.notFound word)
    else
      match index with
      | .int i =>
        if (definitions.length : Int) > i then
          match pyGet definitions i with
          | none => .error .indexError
          | some d =>
            match buildDefinition d i with
            | some defn => .ok (.single defn)
            | none => .error .valueError
        else
          .error (.outOfScope word i)
      | .pynone =>
        match buildDefs 0 definitions with
        | some ds => .ok (.full ds)
        | none => .error .valueError
      | .other => .ok .pyNone
  else
    .error (.httpError word status_code)

/-- The dynamic type of a value stored in an attribute of a `Definition`
instance, as needed to model Python attribute access fully. -/
inductive Value where
  | str (s : String)
  | int (i : Int)
  | strList (l : List String)
  | time (t : Timestamp)
  | raw (r : RawDef)
deriving DecidableEq, Repr

/-- Python attribute access `self.<name>` on a `Definition` instance.
`Definition.__init__` (src lines 24-35) sets exactly the attributes
`word`, `definition`, `example`, `author`, `permalink`, `upvotes`,
`downvotes`, `audio_samples`, `written_on`, `raw_data` and `index`;
access to any other name raises `AttributeError`. -/
def Definition.getattr (self : Definition) (name : String) : Except UrbanError Value :=
  if name = "word" then .ok (.str self.word)
  else if name = "definition" then .ok (.str self.definition)
  else if name = "example" then .ok (.str self.«example»)
  else if name = "author" then .ok (.str self.author)
  else if name = "permalink" then .ok (.str self.permalink)
  else if name = "upvotes" then .ok (.int self.upvotes)
  else if name = "downvotes" then .ok (.int self.downvotes)
  else if name = "audio_samples" then .ok (.strList self.audio_samples)
  else if name = "written_on" then .ok (.time self.written_on)
  else if name = "raw_data" then .ok (.raw self.raw_data)
  else if name = "index" then .ok (.int self.index)
  else .error (.attributeError name)

/-- `Definition.todict` (src lines 37-50): builds the dictionary literal
by reading the attributes of `self` in source order. Note the source
reads `self.sample_samples` for the key named sample_samples (src line
46), not `self.audio_samples`. -/
def Definition.todict (self : Definition) : Except UrbanError (List (String × Value)) := do
  let w ← self.getattr "word"
  let de ← self.getattr "definition"
  let ex ← self.getattr "example"
  let au ← self.getattr "author"
  let pe ← self.getattr "permalink"
  let up ← self.getattr "upvotes"
  let dn ← self.getattr "downvotes"
  let ss ← self.getattr "sample_samples"
  let wr ← self.getattr "written_on"
  let rd ← self.getattr "raw_data"
  let ix ← self.getattr "index"
  pure [("word", w), ("definition", de), ("example", ex), ("author", au),
        ("permalink", pe), ("upvotes", up), ("downvotes", dn),
        ("sample_samples", ss), ("written_on", wr), ("raw_data", rd),
        ("index", ix)]

/-- Model of Python `str()` applied to a `Definition` instance: the
default object representation (the machine address that the real string
carries is omitted, the branch that formats it is unreachable). -/
def pyStr (_ : Definition) : String := "<urban.Definition object>"

/-- The first `try` block of `play_sample` (src lines 161-169) when the
`word` argument is a `Definition` instance: evaluates
`word.sample_samples[index]`, converting an `IndexError` into
`DefinitionOutOfScopeError(f-string of word plus the marker, index)`;
any other exception (in particular the `AttributeError` from the
attribute access) propagates unchanged. -/
def play_sample_record (word : Definition) (index : Int) : Except UrbanError String :=
  let attempt : Except UrbanError String :=
    match word.getattr "sample_samples" with
    | .error e => .error e
    | .ok (.strList urls) =>
      match pyGet urls index with
      | some url => .ok url
      | none => .error .indexError
    | .ok _ => .error .valueError
  match attempt with
  | .error .indexError => .error (.outOfScope (pyStr word ++ " (sample)") index)
  | r => r

/-- Python `str.join`: `sep.join(tags)` concatenates the elements with
`sep` between consecutive ones. -/
def strJoin (sep : String) : List String → String
  | [] => ""
  | [x] => x
  | x :: y :: rest => x ++ sep ++ strJoin sep (y :: rest)

/-- The form body built by `submit_word` (src lines 209-215): the exact
association list passed as POST data, with `tags` joined by a comma and
`giphy` the empty string when `giphy_url` is `None` (or otherwise falsy). -/
def submit_word_data (word definition «example» : String) (tags : List String)
    (giphy_url : Option String) : List (String × String) :=
  [("term", word),
   ("definition", definition),
   ("example", «example»),
   ("tags", strJoin "," tags),
   ("giphy", match giphy_url with
             | some g => if g = "" then "" else g
             | none => "")]

/-- The response handling of `submit_word` (src lines 216-218): a status
other than 200 raises `HTTPException`, otherwise the function returns
`None` (unit). -/
def submit_word_check (word : String) (status_code : Nat) : Except UrbanError Unit :=
  if status_code ≠ 200 then .error (.httpError word status_code) else .ok ()

/-- The single entry of the end-to-end scenario of the specification:
word foo with five upvotes, one downvote, no sound samples and a
timestamp of 2020-01-01T00:00:00.000000Z. -/
def sampleRaw : RawDef :=
  { word := "foo", definition := "bar", «example» := "ex", author := "au",
    permalink := "http://x", thumbs_up := 5, thumbs_down := 1,
    sound_urls := [], written_on := "2020-01-01T00:00:00.000000Z" }

/-- A malformed entry: its `written_on` string does not match the fixed
timestamp format. -/
def badRaw : RawDef :=
  { sampleRaw with written_on := "garbage" }

/-! Helper lemmas about the embedded operations. -/

theorem define_200_nil (word : String) (index : PyIndex) :
    define word index 200 [] = .error (.notFound word) := rfl

theorem define_int_eq (word : String) (i : Int) (a : RawDef) (as : List RawDef) :
    define word (.int i) 200 (a :: as) =
      (if ((a :: as).length : Int) > i then
        match pyGet (a :: as) i with
        | none => .error .indexError
        | some d =>
          match buildDefinition d i with
          | some defn => .ok (.single defn)
          | none => .error .valueError
      else .error (.outOfScope word i)) := rfl

theorem define_pynone_eq (word : String) (a : RawDef) (as : List RawDef) :
    define word .pynone 200 (a :: as) =
      (match buildDefs 0 (a :: as) with
       | some ds => .ok (.full ds)
       | none => .error .valueError) := rfl

theorem define_other_eq (word : String) (a : RawDef) (as : List RawDef) :
    define word .other 200 (a :: as) = .ok .pyNone := rfl

theorem buildDefs_nil (c : Nat) : buildDefs c [] = some [] := rfl

theorem buildDefs_cons (c : Nat) (d : RawDef) (rest : List RawDef) :
    buildDefs c (d :: rest) =
      (buildDefinition d ((c : Int))).bind (fun x =>
        (buildDefs (c + 1) rest).bind (fun xs => some (x :: xs))) := rfl

theorem buildDefinition_eq_some (d : RawDef) (i : Int) (t : Timestamp)
    (h : parseTimestamp d.written_on = some t) :
    buildDefinition d i = some ⟨d.word, d.definition, d.«example», d.author,
      d.permalink, d.thumbs_up, d.thumbs_down, d.sound_urls, t, d, i⟩ := by
  unfold buildDefinition
  rw [h]

theorem buildDefinition_eq_none (d : RawDef) (i : Int)
    (h : parseTimestamp d.written_on = none) : buildDefinition d i = none := by
  unfold buildDefinition
  rw [h]

theorem buildDefinition_index (d : RawDef) (i : Int) (x : Definition)
    (h : buildDefinition d i = some x) : x.index = i := by
  unfold buildDefinition at h
  cases hp : parseTimestamp d.written_on with
  | none => rw [hp] at h; exact Option.noConfusion h
  | some t => rw [hp] at h; injection h with h2; rw [← h2]

theorem buildDefinition_isSome (d : RawDef) (i : Int)
    (h : (parseTimestamp d.written_on).isSome) :
    ∃ x, buildDefinition d i = some x := by
  cases hp : parseTimestamp d.written_on with
  | none => rw [hp] at h; exact absurd h (by simp)
  | some t => exact ⟨_, buildDefinition_eq_some d i t hp⟩

theorem buildDefs_length (ds : List RawDef) : ∀ (c : Nat) (l : List Definition),
    buildDefs c ds = some l → l.length = ds.length := by
  induction ds with
  | nil =>
    intro c l h
    rw [buildDefs_nil] at h
    injection h with h2
    rw [← h2]
    rfl
  | cons d rest ih =>
    intro c l h
    rw [buildDefs_cons] at h
    cases hb : buildDefinition d ((c : Int)) with
    | none => rw [hb, Option.none_bind'] at h; exact Option.noConfusion h
    | some x =>
      rw [hb, Option.some_bind'] at h
      cases hr : buildDefs (c + 1) rest with
      | none => rw [hr, Option.none_bind'] at h; exact Option.noConfusion h
      | some xs =>
        rw [hr, Option.some_bind'] at h
        injection h with h2
        rw [← h2, List.length_cons, List.length_cons, ih (c + 1) xs hr]

theorem buildDefs_get (ds : List RawDef) : ∀ (c : Nat) (l : List Definition),
    buildDefs c ds = some l → ∀ (i : Nat) (hi : i < ds.length) (hl : i < l.length),
      buildDefinition (ds.get ⟨i, hi⟩) (((c + i : Nat) : Int)) = some (l.get ⟨i, hl⟩) := by
  induction ds with
  | nil =>
    intro c l h i hi hl
    exact absurd hi (by simp)
  | cons d rest ih =>
    intro c l h i hi hl
    rw [buildDefs_cons] at h
    cases hb : buildDefinition d ((c : Int)) with
    | none => rw [hb, Option.none_bind'] at h; exact Option.noConfusion h
    | some x =>
      rw [hb, Option.some_bind'] at h
      cases hr : buildDefs (c + 1) rest with
      | none => rw [hr, Option.none_bind'] at h; exact Option.noConfusion h
      | some xs =>
        rw [hr, Option.some_bind'] at h
        injection h with h2
        subst h2
        cases i with
        | zero => simpa using hb
        | succ j =>
          have hj : j < rest.length := by simpa using hi
          have hjl : j < xs.length := by simpa using hl
          have hrec := ih (c + 1) xs hr j hj hjl
          have harith : c + 1 + j = c + (j + 1) := by omega
          rw [harith] at hrec
          simpa using hrec

theorem buildDefs_isSome (ds : List RawDef) : ∀ (c : Nat),
    (∀ d ∈ ds, (parseTimestamp d.written_on).isSome) →
    ∃ l, buildDefs c ds = some l := by
  induction ds with
  | nil => intro c _; exact ⟨[], buildDefs_nil c⟩
  | cons d rest ih =>
    intro c hp
    obtain ⟨x, hx⟩ := buildDefinition_isSome d ((c : Int)) (hp d (by simp))
    obtain ⟨xs, hxs⟩ := ih (c + 1) (fun e he => hp e (by simp [he]))
    refine ⟨x :: xs, ?_⟩
    rw [buildDefs_cons, hx, Option.some_bind', hxs, Option.some_bind']

theorem buildDefs_none_of_bad (ds : List RawDef) : ∀ (c : Nat) (d : RawDef),
    d ∈ ds → parseTimestamp d.written_on = none → buildDefs c ds = none := by
  induction ds with
  | nil => intro c d hd _; exact absurd hd (by simp)
  | cons e rest ih =>
    intro c d hd hbad
    rw [buildDefs_cons]
    rcases List.mem_cons.mp hd with h | h
    · rw [← h, buildDefinition_eq_none _ _ hbad, Option.none_bind']
    · cases hb : buildDefinition e ((c : Int)) with
      | none => rw [Option.none_bind']
      | some x => rw [Option.some_bind', ih (c + 1) d h hbad, Option.none_bind']

theorem pyGet_ofNat {α : Type} (xs : List α) (k : Nat) :
    pyGet xs (k : Int) = xs.get? k := by
  unfold pyGet
  rw [if_pos (Int.natCast_nonneg k)]
  norm_num

theorem pyGet_nil {α : Type} (i : Int) : pyGet ([] : List α) i = none := by
  unfold pyGet
  split
  · rfl
  · split <;> rfl

theorem pyGet_some_lt {α : Type} (xs : List α) (i : Int) (a : α)
    (h : pyGet xs i = some a) : (xs.length : Int) > i := by
  unfold pyGet at h
  split at h
  · rename_i hnn
    have hlt := (List.get?_eq_some.mp h).choose
    omega
  · split at h
    · rename_i hge hneg
      omega
    · exact Option.noConfusion h

theorem pyGet_some_ne_nil {α : Type} (xs : List α) (i : Int) (a : α)
    (h : pyGet xs i = some a) : xs ≠ [] := by
  intro hnil
  rw [hnil, pyGet_nil] at h
  exact Option.noConfusion h

theorem define_200_not_http (word : String) (index : PyIndex) (data : List RawDef)
    (w : String) (s : Nat) : define word index 200 data ≠ .error (.httpError w s) := by
  intro hcontra
  cases data with
  | nil =>
    rw [define_200_nil] at hcontra
    injection hcontra with h2
    exact UrbanError.noConfusion h2
  | cons a as =>
    cases index with
    | int i =>
      rw [define_int_eq] at hcontra
      by_cases hgt : ((a :: as).length : Int) > i
      · rw [if_pos hgt] at hcontra
        cases hpg : pyGet (a :: as) i with
        | none =>
          simp only [hpg] at hcontra
          injection hcontra with h2
          exact UrbanError.noConfusion h2
        | some d =>
          simp only [hpg] at hcontra
          cases hb : buildDefinition d i with
          | none =>
            simp only [hb] at hcontra
            injection hcontra with h2
            exact UrbanError.noConfusion h2
          | some x =>
            simp only [hb] at hcontra
            exact Except.noConfusion hcontra
      · rw [if_neg hgt] at hcontra
        injection hcontra with h2
        exact UrbanError.noConfusion h2
    | pynone =>
      rw [define_pynone_eq] at hcontra
      cases hbl : buildDefs 0 (a :: as) with
      | none =>
        simp only [hbl] at hcontra
        injection hcontra with h2
        exact UrbanError.noConfusion h2
      | some ds =>
        simp only [hbl] at hcontra
        exact Except.noConfusion hcontra
    | other =>
      rw [define_other_eq] at hcontra
      exact Except.noConfusion hcontra

/-! The claim theorems. -/

/-- C4: a 200 response whose result list is empty makes `define` raise
`DefinitionNotFoundError` carrying the word, whatever the selector is
(an integer, `None`, or any other value): the emptiness test runs before
the selector is even examined. -/
theorem define_empty_list_not_found (word : String) (index : PyIndex) :
    define word index 200 [] = .error (.notFound word) := rfl

/-- C5 (code bug): `todict` never returns the dictionary: on every record
built by `Definition.__init__` it raises `AttributeError`, because the
constructor stores the audio list under the attribute `audio_samples`
(src line 32) while `todict` reads `self.sample_samples` (src line 46). -/
theorem todict_raises_attribute_error (d : Definition) :
    d.todict = .error (.attributeError "sample_samples") := rfl

/-- C6 (code bug): `play_sample` called with a `Definition` record never
raises `DefinitionOutOfScopeError`, whatever the index: the access
`word.sample_samples` raises `AttributeError` (the constructor stored
the list under `audio_samples`), and the `except IndexError` handler of
src line 168 does not catch an `AttributeError`. -/
theorem play_sample_record_attribute_error (d : Definition) (index : Int) :
    play_sample_record d index = .error (.attributeError "sample_samples") := rfl

/-- C7: the POST body of `submit_word` holds exactly the form fields
term, definition, example, tags and giphy, with the tags list joined by
a comma separator (so the list a, b, c becomes the single string a,b,c)
and giphy the empty string when no giphy url was given. -/
theorem submit_word_form_fields (word definition «example» : String)
    (tags : List String) :
    submit_word_data word definition «example» tags none =
      [("term", word), ("definition", definition), ("example", «example»),
       ("tags", strJoin "," tags), ("giphy", "")] ∧
    strJoin "," ["a", "b", "c"] = "a,b,c" := ⟨rfl, rfl⟩

/-- C10: with a 200 response holding at least one entry, a selector that
is neither an integer nor `None` makes `define` fall off the end of its
body: no exception is raised and the Python value `None` is returned. -/
theorem define_other_selector_returns_none (word : String) (data : List RawDef)
    (hne : data ≠ []) : define word .other 200 data = .ok .pyNone := by
  obtain ⟨a, as, heq⟩ := List.exists_cons_of_ne_nil hne
  subst heq
  exact define_other_eq word a as

/-- Witness for C10 at the sample entry. -/
theorem define_other_selector_returns_none_witness :
    define "w" .other 200 [sampleRaw] = .ok .pyNone :=
  define_other_selector_returns_none "w" [sampleRaw] (List.cons_ne_nil _ _)

/-- C8: a non-200 status makes both `define` and `submit_word` raise
`HTTPException` carrying the word and the status code, and a 200 status
never raises that exception in either function. -/
theorem transport_status_behavior (word : String) (index : PyIndex) (status : Nat)
    (data : List RawDef) :
    (status ≠ 200 →
      define word index status data = .error (.httpError word status) ∧
      submit_word_check word status = .error (.httpError word status)) ∧
    (status = 200 →
      (∀ w s, define word index status data ≠ .error (.httpError w s)) ∧
      submit_word_check word status = .ok ()) := by
  constructor
  · intro h
    constructor
    · unfold define
      rw [if_neg h]
    · unfold submit_word_check
      rw [if_pos h]
  · intro h
    subst h
    refine ⟨fun w s => define_200_not_http word index data w s, ?_⟩
    unfold submit_word_check
    rw [if_neg (fun hh => hh rfl)]

/-- Witness for C8: a 500 status raises the transport error in both
functions. -/
theorem transport_status_behavior_witness :
    define "w" (.int 0) 500 [sampleRaw] = .error (.httpError "w" 500) ∧
    submit_word_check "w" 500 = .error (.httpError "w" 500) :=
  (transport_status_behavior "w" (.int 0) 500 [sampleRaw]).1 (by omega)

/-- C1: for a word whose 200 response list has N entries (N at least 1),
all of whose timestamps parse, `define` with selector `None` returns
exactly N records, the record at each position i carrying `index = i`,
in response order. -/
theorem define_all_selector_indexed (word : String) (data : List RawDef)
    (hne : data ≠ [])
    (hp : ∀ d ∈ data, (parseTimestamp d.written_on).isSome) :
    ∃ rs, define word .pynone 200 data = .ok (.full rs) ∧
      rs.length = data.length ∧
      ∀ (i : Nat) (hi : i < rs.length), (rs.get ⟨i, hi⟩).index = (i : Int) := by
  obtain ⟨a, as, heq⟩ := List.exists_cons_of_ne_nil hne
  subst heq
  obtain ⟨l, hl⟩ := buildDefs_isSome (a :: as) 0 hp
  refine ⟨l, ?_, buildDefs_length _ 0 l hl, ?_⟩
  · rw [define_pynone_eq, hl]
  · intro i hi
    have hi2 : i < (a :: as).length := by
      rw [← buildDefs_length _ 0 l hl]
      exact hi
    have hbd := buildDefs_get (a :: as) 0 l hl i hi2 hi
    have hidx := buildDefinition_index _ _ _ hbd
    rw [hidx, Nat.zero_add]

/-- Witness for C1 at the one-entry sample response. -/
theorem define_all_selector_indexed_witness :
    ∃ rs, define "foo" .pynone 200 [sampleRaw] = .ok (.full rs) ∧
      rs.length = [sampleRaw].length ∧
      ∀ (i : Nat) (hi : i < rs.length), (rs.get ⟨i, hi⟩).index = (i : Int) :=
  define_all_selector_indexed "foo" [sampleRaw] (List.cons_ne_nil _ _)
    (by
      intro d hd
      rw [List.mem_singleton] at hd
      rw [hd]
      rfl)

/-- C2: for 0 ≤ k < N (all timestamps parsing), `define` with integer
selector k returns a single record equal, field by field, to the k-th
element of the list returned by the selector `None` on the same
response, the `index` field included. -/
theorem define_single_matches_full (word : String) (data : List RawDef) (k : Nat)
    (hk : k < data.length)
    (hp : ∀ d ∈ data, (parseTimestamp d.written_on).isSome) :
    ∃ r rs, define word (.int (k : Int)) 200 data = .ok (.single r) ∧
      define word .pynone 200 data = .ok (.full rs) ∧
      ∃ hlen : k < rs.length, rs.get ⟨k, hlen⟩ = r := by
  have hne : data ≠ [] := by
    intro h
    rw [h] at hk
    exact absurd hk (by simp)
  obtain ⟨a, as, heq⟩ := List.exists_cons_of_ne_nil hne
  subst heq
  obtain ⟨l, hl⟩ := buildDefs_isSome (a :: as) 0 hp
  have hkl : k < l.length := by
    rw [buildDefs_length _ 0 l hl]
    exact hk
  have hbd := buildDefs_get (a :: as) 0 l hl k hk hkl
  rw [Nat.zero_add] at hbd
  refine ⟨l.get ⟨k, hkl⟩, l, ?_, ?_, hkl, rfl⟩
  · rw [define_int_eq, if_pos (by exact_mod_cast hk)]
    simp only [pyGet_ofNat, List.get?_eq_get hk, hbd]
  · rw [define_pynone_eq, hl]

/-- Witness for C2 at the one-entry sample response, k = 0. -/
theorem define_single_matches_full_witness :
    ∃ r rs, define "foo" (.int ((0 : Nat) : Int)) 200 [sampleRaw] = .ok (.single r) ∧
      define "foo" .pynone 200 [sampleRaw] = .ok (.full rs) ∧
      ∃ hlen : 0 < rs.length, rs.get ⟨0, hlen⟩ = r :=
  define_single_matches_full "foo" [sampleRaw] 0 (by simp)
    (by
      intro d hd
      rw [List.mem_singleton] at hd
      rw [hd]
      rfl)

/-- C3 counterexample: with one definition, the integer selector -1 does
not raise `DefinitionOutOfScopeError`; the bound check of src line 103
passes (1 > -1) and Python negative indexing returns the last entry, so
a record is returned. -/
theorem define_negative_index_counterexample :
    define "w" (.int (-1)) 200 [sampleRaw] ≠ .error (.outOfScope "w" (-1)) ∧
    ∃ d, define "w" (.int (-1)) 200 [sampleRaw] = .ok (.single d) := by
  constructor
  · intro h
    rw [show define "w" (.int (-1)) 200 [sampleRaw] = .ok (.single
      ⟨sampleRaw.word, sampleRaw.definition, sampleRaw.«example», sampleRaw.author,
       sampleRaw.permalink, sampleRaw.thumbs_up, sampleRaw.thumbs_down,
       sampleRaw.sound_urls, ⟨2020, 1, 1, 0, 0, 0, 0⟩, sampleRaw, -1⟩) from rfl] at h
    exact Except.noConfusion h
  · exact ⟨_, rfl⟩

/-- C3 amended: with N definitions (N at least 1), an integer selector
k ≥ N raises `DefinitionOutOfScopeError{word, k}`; a selector k < -N
raises a bare `IndexError` instead; and a selector -N ≤ k < 0 raises
nothing: Python negative indexing applies and a single record for
position N + k is returned, its `index` field set to k itself. -/
theorem define_int_selector_bounds (word : String) (data : List RawDef) (k : Int)
    (hne : data ≠ []) :
    ((data.length : Int) ≤ k →
      define word (.int k) 200 data = .error (.outOfScope word k)) ∧
    (k < -(data.length : Int) →
      define word (.int k) 200 data = .error .indexError) ∧
    (-(data.length : Int) ≤ k → k < 0 →
      ∀ d, pyGet data k = some d → (parseTimestamp d.written_on).isSome →
        ∃ r, define word (.int k) 200 data = .ok (.single r) ∧ r.index = k) := by
  obtain ⟨a, as, heq⟩ := List.exists_cons_of_ne_nil hne
  subst heq
  refine ⟨?_, ?_, ?_⟩
  · intro hge
    rw [define_int_eq, if_neg (by omega)]
  · intro hlt
    rw [define_int_eq, if_pos (by omega)]
    have hnone : pyGet (a :: as) k = none := by
      unfold pyGet
      rw [if_neg (by omega), if_neg (by omega)]
    simp only [hnone]
  · intro h1 h2 d hpg hps
    obtain ⟨r, hr⟩ := buildDefinition_isSome d k hps
    refine ⟨r, ?_, buildDefinition_index d k r hr⟩
    rw [define_int_eq, if_pos (by omega)]
    simp only [hpg, hr]

/-- Witness for the amended C3: selector -1 on one definition returns a
record whose `index` field is -1. -/
theorem define_int_selector_bounds_witness :
    ∃ r, define "w" (.int (-1)) 200 [sampleRaw] = .ok (.single r) ∧ r.index = -1 :=
  (define_int_selector_bounds "w" [sampleRaw] (-1) (List.cons_ne_nil _ _)).2.2
    (by decide) (by decide) sampleRaw rfl rfl

/-- C9: if the `written_on` string of an entry the call materializes does
not parse in the fixed format, the whole call raises `ValueError`: with
an integer selector this holds for the entry that selector addresses,
and with the selector `None` a single malformed entry anywhere in the
list aborts the whole call, so no partial list is ever returned. -/
theorem define_bad_timestamp_aborts (word : String) (data : List RawDef) :
    (∀ (i : Int) (d : RawDef), pyGet data i = some d →
       parseTimestamp d.written_on = none →
       define word (.int i) 200 data = .error .valueError) ∧
    (∀ d ∈ data, parseTimestamp d.written_on = none →
       define word .pynone 200 data = .error .valueError) := by
  constructor
  · intro i d hpg hbad
    obtain ⟨a, as, heq⟩ :=
      List.exists_cons_of_ne_nil (pyGet_some_ne_nil data i d hpg)
    subst heq
    have hgt := pyGet_some_lt _ i d hpg
    rw [define_int_eq, if_pos hgt]
    simp only [hpg, buildDefinition_eq_none d i hbad]
  · intro d hd hbad
    have hne : data ≠ [] := List.ne_nil_of_mem hd
    obtain ⟨a, as, heq⟩ := List.exists_cons_of_ne_nil hne
    subst heq
    rw [define_pynone_eq]
    simp only [buildDefs_none_of_bad _ 0 d hd hbad]

/-- Witness for C9: a one-entry list whose timestamp is malformed makes
the full-list call raise `ValueError`. -/
theorem define_bad_timestamp_aborts_witness :
    define "w" .pynone 200 [badRaw] = .error .valueError :=
  (define_bad_timestamp_aborts "w" [badRaw]).2 badRaw (List.mem_singleton.mpr rfl) rfl

end Urban
